import Mathlib

/-!
Shallow embedding of `src/app.py` (GroqSearchSummarizer): a single-turn
research-assistant pipeline.  The three search backends (DuckDuckGo,
Wikipedia, arXiv), and the Groq LLM endpoint are external network services;
each is modelled as an oracle parameter giving the outcome of its call
(`Except String _`: `.ok` the returned value, `.error e` an exception whose
text is `e`).  Everything the repository's own code does with those outcomes
(catching, formatting, truncating, appending to the transcript) is embedded
faithfully below.
-/

/-- A chat message held in `st.session_state["messages"]`: a role
(`"user"` or `"assistant"`) and text content. -/
structure Message where
  role : String
  content : String

/-- The seeded transcript (src/app.py lines 34-37): one assistant greeting. -/
def initialMessages : List Message :=
  [⟨"assistant", "Hi! Ask me about people, topics, or papers. I’ll search and summarize."⟩]

/-- One DuckDuckGo result dict.  Each field is `none` when the key is absent
from the dict and `some v` when it is present with string value `v`. -/
structure DDGResult where
  title : Option String
  title_full : Option String
  href : Option String
  link : Option String
  body : Option String

/-- Python `a or b` where `a` is `dict.get(key)`: `None` (absent key) and the
empty string are both falsy, so the fallback `b` is used for either. -/
def pyOrStr (a : Option String) (b : String) : String :=
  match a with
  | some s => if s = "" then b else s
  | none => b

/-- Python string slicing `s[:n]`, counted in code points. -/
def pySlice (s : String) (n : Nat) : String :=
  ⟨s.data.take n⟩

/-- src/app.py lines 46-56, `ddg_search`: the DuckDuckGo call either returns
a result list or raises; any exception is caught and replaced by the
single-element placeholder list
`[\x7b"title": "DuckDuckGo error", "href": "", "body": str(e)\x7d]`. -/
def ddg_search (backend : Except String (List DDGResult)) : List DDGResult :=
  match backend with
  | .ok results => results
  | .error e => [⟨some "DuckDuckGo error", none, some "", none, some e⟩]

/-- Truncation applied inside the external `WikipediaAPIWrapper` /
`ArxivAPIWrapper` (constructed with `doc_content_chars_max = max_chars`):
the wrapper slices its final document string to at most `max_chars`
characters.  `raw` is the untruncated content fetched by the wrapper. -/
def libraryTruncate (raw : String) (max_chars : Nat) : String :=
  pySlice raw max_chars

/-- src/app.py lines 59-65, `wiki_search`: returns the wrapper output on
success; any exception `e` is caught and replaced by the string
`"Wikipedia error: " ++ str(e)`. -/
def wiki_search (backend : Except String String) (max_chars : Nat) : String :=
  match backend with
  | .ok raw => libraryTruncate raw max_chars
  | .error e => "Wikipedia error: " ++ e

/-- src/app.py lines 68-74, `arxiv_search`: same shape as `wiki_search` with
error prefix `"arXiv error: "`. -/
def arxiv_search (backend : Except String String) (max_chars : Nat) : String :=
  match backend with
  | .ok raw => libraryTruncate raw max_chars
  | .error e => "arXiv error: " ++ e

/-- JSON-encodable Python values, for the `json.dumps` fallback branch of the
evidence composition (src/app.py lines 137-138). -/
inductive JVal where
  | jnull
  | jbool (b : Bool)
  | jint (n : Int)
  | jstr (s : String)
  | jarr (xs : List JVal)
  | jobj (fields : List (String × JVal))

/-- Lower-case hex digit. -/
def hexDigit (n : Nat) : Char :=
  if n < 10 then Char.ofNat (48 + n) else Char.ofNat (87 + n)

/-- `json.dumps` escaping of one character (`ensure_ascii=False`): only the
quote, the backslash and control characters are escaped. -/
def jsonEscapeChar (c : Char) : String :=
  if c = '"' then "\\\""
  else if c = '\\' then "\\\\"
  else if c = '\n' then "\\n"
  else if c = '\t' then "\\t"
  else if c = '\r' then "\\r"
  else if c.toNat = 8 then "\\b"
  else if c.toNat = 12 then "\\f"
  else if c.toNat < 32 then
    "\\u00" ++ String.mk [hexDigit (c.toNat / 16), hexDigit (c.toNat % 16)]
  else String.mk [c]

/-- `json.dumps` escaping of a string body. -/
def jsonEscape (s : String) : String :=
  String.join (s.data.map jsonEscapeChar)

mutual

/-- Python `json.dumps(v, ensure_ascii=False)` with default separators. -/
def json_dumps : JVal → String
  | .jnull => "null"
  | .jbool true => "true"
  | .jbool false => "false"
  | .jint n => toString n
  | .jstr s => "\"" ++ jsonEscape s ++ "\""
  | .jarr xs => "[" ++ dumpsItems xs ++ "]"
  | .jobj fs => "\x7b" ++ dumpsFields fs ++ "\x7d"

/-- Array items, `", "`-separated. -/
def dumpsItems : List JVal → String
  | [] => ""
  | [x] => json_dumps x
  | x :: y :: xs => json_dumps x ++ ", " ++ dumpsItems (y :: xs)

/-- Object fields, `", "`-separated, `": "` between key and value. -/
def dumpsFields : List (String × JVal) → String
  | [] => ""
  | [(k, v)] => "\"" ++ jsonEscape k ++ "\": " ++ json_dumps v
  | (k, v) :: f :: fs =>
    "\"" ++ jsonEscape k ++ "\": " ++ json_dumps v ++ ", " ++ dumpsFields (f :: fs)

end

/-- A Python value that is either a `str` or some other (JSON-encodable)
value: the type of `wiki` / `arxv` as consumed by the evidence composition,
which branches on `isinstance(wiki, str)`. -/
inductive PyStrOr where
  | str (s : String)
  | other (v : JVal)

/-- `wiki if isinstance(wiki, str) else json.dumps(wiki, ensure_ascii=False)`
(src/app.py lines 137-138). -/
def strOrDumps : PyStrOr → String
  | .str s => s
  | .other v => json_dumps v

/-- One rendered web line (src/app.py lines 130-133):
`f"- \x7btitle\x7d — \x7bhref\x7d\n  \x7bbody[:240]\x7d"` with
`title = r.get("title") or r.get("title_full") or ""`,
`href = r.get("href") or r.get("link") or ""`, `body = r.get("body", "")`. -/
def ddg_line (r : DDGResult) : String :=
  let title := pyOrStr r.title (pyOrStr r.title_full "")
  let href := pyOrStr r.href (pyOrStr r.link "")
  let body := r.body.getD ""
  "- " ++ title ++ " — " ++ href ++ "\n  " ++ pySlice body 240

/-- The rendered web lines: `for r in ddg[:3]` (src/app.py lines 128-133). -/
def ddg_lines (ddg : List DDGResult) : List String :=
  (ddg.take 3).map ddg_line

/-- The evidence block (src/app.py lines 135-139): three labeled sections,
web then encyclopedia then preprints, joined with blank-line separators. -/
def evidence (ddg : List DDGResult) (wiki arxv : PyStrOr) : String :=
  "== DuckDuckGo ==\n" ++ String.intercalate "\n" (ddg_lines ddg) ++
  "\n\n== Wikipedia ==\n" ++ strOrDumps wiki ++
  "\n\n== arXiv ==\n" ++ strOrDumps arxv

/-- The inputs of one user turn: the sidebar credential, the submitted text,
and the outcomes of the four external calls.  `synth` maps the evidence
string handed to `synthesize_with_llm` to that call's outcome. -/
structure TurnInput where
  api_key : String
  user_input : String
  ddgB : Except String (List DDGResult)
  wikiB : Except String String
  arxvB : Except String String
  synth : String → Except String String

/-- The observable outcome of one turn: the new transcript and whether
`synthesize_with_llm` was invoked. -/
structure TurnResult where
  messages : List Message
  synth_called : Bool

/-- src/app.py lines 101-148: one user turn.  `if user_input:` guards the
whole block; the user message is appended first; an empty credential appends
the fixed instruction message and stops (`st.stop()`); otherwise the three
searches run (each fail-soft), the evidence block is built, and the
synthesizer outcome — its answer, or the `"Sorry, ..."` text wrapping the
exception — becomes the one assistant message of the turn. -/
def run_turn (messages : List Message) (t : TurnInput) : TurnResult :=
  if t.user_input = "" then
    ⟨messages, false⟩
  else
    let messages := messages ++ [⟨"user", t.user_input⟩]
    if t.api_key = "" then
      ⟨messages ++ [⟨"assistant", "Please enter your Groq API key in the sidebar."⟩], false⟩
    else
      let ddg := ddg_search t.ddgB
      let wiki := wiki_search t.wikiB 800
      let arxv := arxiv_search t.arxvB 1200
      let ev := evidence ddg (.str wiki) (.str arxv)
      let final :=
        match t.synth ev with
        | .ok s => s
        | .error e => "Sorry, something went wrong with the LLM: " ++ e
      ⟨messages ++ [⟨"assistant", final⟩], true⟩

/-- A session: the turns are processed one at a time against the transcript. -/
def run_turns (messages : List Message) : List TurnInput → List Message
  | [] => messages
  | t :: ts => run_turns (run_turn messages t).messages ts

/-- A sample successful turn, used to instantiate universally quantified
theorems at concrete inputs. -/
def sampleTurn : TurnInput :=
  ⟨"gsk-key", "Ronaldo clubs", .ok [], .ok "wiki text", .ok "arxiv text", fun _ => .ok "answer"⟩

/-- A sample turn submitted with an empty credential. -/
def sampleTurnNoKey : TurnInput :=
  ⟨"", "hi", .ok [], .ok "w", .ok "a", fun _ => .ok "answer"⟩

/-- A sample turn whose synthesizer call raises. -/
def sampleTurnFail : TurnInput :=
  ⟨"gsk-key", "hi", .ok [], .ok "w", .ok "a", fun _ => .error "boom"⟩

theorem pySlice_length_le (s : String) (n : Nat) : (pySlice s n).length ≤ n := by
  show (s.data.take n).length ≤ n
  rw [List.length_take]
  exact min_le_left _ _

theorem run_turn_length (messages : List Message) (t : TurnInput)
    (h : t.user_input ≠ "") :
    (run_turn messages t).messages.length = messages.length + 2 := by
  unfold run_turn
  simp only [if_neg h]
  split <;> simp [List.length_append]

theorem run_turns_length (ts : List TurnInput) (messages : List Message)
    (h : ∀ t ∈ ts, t.user_input ≠ "") :
    (run_turns messages ts).length = messages.length + 2 * ts.length := by
  induction ts generalizing messages with
  | nil => simp [run_turns]
  | cons t ts ih =>
    rw [run_turns, ih _ (fun u hu => h u (List.mem_cons_of_mem _ hu)),
      run_turn_length messages t (h t (List.mem_cons_self _ _))]
    simp [List.length_cons]
    omega

/-- C1: starting from the seeded one-greeting transcript, every user turn
appends exactly one user and one assistant message (even on failure), so
after the N turns of a session the transcript holds 1 + 2N messages. -/
theorem session_growth (ts : List TurnInput)
    (h : ∀ t ∈ ts, t.user_input ≠ "") :
    (run_turns initialMessages ts).length = 1 + 2 * ts.length := by
  rw [run_turns_length ts initialMessages h]
  simp [initialMessages]

theorem session_growth_witness :
    (run_turns initialMessages [sampleTurn, sampleTurnFail]).length = 1 + 2 * 2 :=
  session_growth [sampleTurn, sampleTurnFail] (by
    intro t ht
    simp only [List.mem_cons, List.not_mem_nil, or_false] at ht
    rcases ht with h | h <;> subst h <;> decide)

/-- C2: a turn submitted while the credential string is empty appends the
user message and exactly one assistant message equal to the fixed
instruction text, and never invokes the synthesizer. -/
theorem missing_credential_halts (messages : List Message) (t : TurnInput)
    (hkey : t.api_key = "") (hin : t.user_input ≠ "") :
    (run_turn messages t).messages =
      messages ++ [⟨"user", t.user_input⟩,
        ⟨"assistant", "Please enter your Groq API key in the sidebar."⟩] ∧
    (run_turn messages t).synth_called = false := by
  unfold run_turn
  simp [hin, hkey]

theorem missing_credential_halts_witness :
    (run_turn initialMessages sampleTurnNoKey).messages =
      initialMessages ++ [⟨"user", "hi"⟩,
        ⟨"assistant", "Please enter your Groq API key in the sidebar."⟩] ∧
    (run_turn initialMessages sampleTurnNoKey).synth_called = false :=
  missing_credential_halts initialMessages sampleTurnNoKey rfl (by decide)

/-- C3: when the DuckDuckGo backend raises any exception, `ddg_search`
returns the single-element placeholder result list instead of propagating,
and the evidence composition still succeeds, embedding the placeholder title
and the exception text in the web section. -/
theorem ddg_fail_soft (e : String) (wiki arxv : PyStrOr) :
    ddg_search (Except.error e) =
      [⟨some "DuckDuckGo error", none, some "", none, some e⟩] ∧
    evidence (ddg_search (Except.error e)) wiki arxv =
      "== DuckDuckGo ==\n" ++ ("- DuckDuckGo error — \n  " ++ pySlice e 240) ++
      "\n\n== Wikipedia ==\n" ++ strOrDumps wiki ++
      "\n\n== arXiv ==\n" ++ strOrDumps arxv :=
  ⟨rfl, rfl⟩

/-- C4: for every combination of inputs the evidence block is exactly three
labeled sections in the fixed order web, encyclopedia, preprints, each
separated from the next by a blank line. -/
theorem evidence_three_sections (ddg : List DDGResult) (wiki arxv : PyStrOr) :
    ∃ webBody wikiBody arxvBody,
      evidence ddg wiki arxv =
        "== DuckDuckGo ==\n" ++ webBody ++
        "\n\n== Wikipedia ==\n" ++ wikiBody ++
        "\n\n== arXiv ==\n" ++ arxvBody :=
  ⟨String.intercalate "\n" (ddg_lines ddg), strOrDumps wiki, strOrDumps arxv, rfl⟩

set_option maxRecDepth 4000 in
/-- C6 (counterexample): on the error path the truncation bound fails — an
800-character exception text makes `wiki_search` with `max_chars = 800`
return a 817-character string. -/
theorem truncation_error_path_cex :
    ¬ (wiki_search (Except.error (String.mk (List.replicate 800 'x'))) 800).length ≤ 800 := by
  decide

/-- C6 (amended): on the success path `wiki_search` and `arxiv_search` never
exceed `max_chars`; on the error path they return the fixed prefix plus the
untruncated exception text, which can exceed the bound. -/
theorem truncation_amended (raw e : String) (mc : Nat) :
    (wiki_search (Except.ok raw) mc).length ≤ mc ∧
    (arxiv_search (Except.ok raw) mc).length ≤ mc ∧
    wiki_search (Except.error e) mc = "Wikipedia error: " ++ e ∧
    arxiv_search (Except.error e) mc = "arXiv error: " ++ e :=
  ⟨pySlice_length_le raw mc, pySlice_length_le raw mc, rfl, rfl⟩

/-- C7: the rendered web section never holds more than 3 entries, however
many results the backend supplied. -/
theorem web_result_cap (ddg : List DDGResult) : (ddg_lines ddg).length ≤ 3 := by
  show ((ddg.take 3).map ddg_line).length ≤ 3
  rw [List.length_map, List.length_take]
  exact min_le_left _ _

/-- C8: the evidence composition is a deterministic pure function — two
evaluations on identical inputs yield identical output. -/
theorem compose_deterministic (d1 d2 : List DDGResult) (w1 w2 p1 p2 : PyStrOr)
    (hd : d1 = d2) (hw : w1 = w2) (hp : p1 = p2) :
    evidence d1 w1 p1 = evidence d2 w2 p2 := by
  rw [hd, hw, hp]

theorem compose_deterministic_witness :
    evidence [] (.str "w") (.str "p") = evidence [] (.str "w") (.str "p") :=
  compose_deterministic [] [] (.str "w") (.str "w") (.str "p") (.str "p") rfl rfl rfl

/-- C9: when the model call raises, the exception is caught and becomes the
turn's single assistant message, whose text wraps the error text; the
transcript grows normally and the session does not crash. -/
theorem synthesis_failure_contained (messages : List Message) (t : TurnInput)
    (e : String) (hin : t.user_input ≠ "") (hkey : t.api_key ≠ "")
    (hfail : ∀ s, t.synth s = Except.error e) :
    (run_turn messages t).messages =
      messages ++ [⟨"user", t.user_input⟩,
        ⟨"assistant", "Sorry, something went wrong with the LLM: " ++ e⟩] := by
  unfold run_turn
  simp [hin, hkey, hfail]

theorem synthesis_failure_contained_witness :
    (run_turn initialMessages sampleTurnFail).messages =
      initialMessages ++ [⟨"user", "hi"⟩,
        ⟨"assistant", "Sorry, something went wrong with the LLM: " ++ "boom"⟩] :=
  synthesis_failure_contained initialMessages sampleTurnFail "boom"
    (by decide) (by decide) (fun _ => rfl)

/-- C10: the evidence composition is total on malformed inputs — a result
dict with none of the title/title_full, href/link, body keys renders with
empty-string defaults, and non-string encyclopedia/preprint values are
JSON-encoded; a text block is produced in every case. -/
theorem compose_total_malformed (j k : JVal) (ddg : List DDGResult) :
    ddg_line ⟨none, none, none, none, none⟩ = "-  — \n  " ∧
    ∃ webBody,
      evidence ddg (.other j) (.other k) =
        "== DuckDuckGo ==\n" ++ webBody ++
        "\n\n== Wikipedia ==\n" ++ json_dumps j ++
        "\n\n== arXiv ==\n" ++ json_dumps k :=
  ⟨rfl, String.intercalate "\n" (ddg_lines ddg), rfl⟩
